import Mathlib

/-!
Verification development for the exam backend (exAIma_backend).

The Python services are shallowly embedded as pure Lean functions over an
explicit `Store` record that stands for the hosted database tables.  External
collaborators (bcrypt, JWT signing/decoding, uuid generation, clock) are
passed in as parameters, mirroring the spec which puts them out of scope.
Python `dict`s built by keyed insertion are modelled as association lists in
insertion order (`pyDictInsert` / `pyDictOf` / `pyDictGet`), matching the
last-assignment-wins semantics of `d[k] = v`.
-/

namespace ExamApp

/-- HTTP error raised via `HTTPException(status_code, detail)`. -/
structure HTTPError where
  status : Nat
  detail : String
deriving DecidableEq, Repr

/-- Row of the `questions` table (`marks` is a nullable INTEGER column;
`None` models SQL NULL). -/
structure QuestionRow where
  id : Int
  exam_id : Int
  question_text : String
  option_a : String
  option_b : String
  option_c : String
  option_d : String
  correct_option : String
  marks : Option Int
deriving DecidableEq, Repr

/-- Row of the `exams` table (fields used by the embedded services). -/
structure ExamRow where
  id : Int
  exam_name : String
  description : String
  duration_mins : Int
deriving DecidableEq, Repr

/-- Row of the `users` table. -/
structure UserRow where
  id : String
  username : String
  email : String
  full_name : String
  password_hash : String
  created_at : String
  updated_at : String
deriving DecidableEq, Repr

/-- The in-memory `User` model of `app/auth/models.py`: note it has no
`password_hash` field, so anything returned through it carries no hash. -/
structure UserPublic where
  id : String
  username : String
  email : String
  full_name : String
  created_at : String
  updated_at : String
deriving DecidableEq, Repr

/-- Row of the `tokens` table. -/
structure TokenRow where
  id : String
  user_id : String
  token : String
  created_at : String
  is_revoked : Bool
deriving DecidableEq, Repr

/-- Row of the `user_exam_results` table. -/
structure ResultRow where
  id : Int
  user_id : String
  exam_id : Int
  total_marks : Int
  obtained_marks : Int
  correct_answers : Int
  wrong_answers : Int
  completed_at : String
deriving DecidableEq, Repr

/-- Row of the `user_question_responses` table (the db-assigned primary key
is not modelled). -/
structure UserQuestionResponseRow where
  result_id : Int
  question_id : Int
  selected_option : Option String
  is_correct : Bool
  created_at : String
deriving DecidableEq, Repr

/-- The whole external database.  `next_result_id` models the
auto-incrementing primary key of `user_exam_results`. -/
structure Store where
  users : List UserRow
  tokens : List TokenRow
  exams : List ExamRow
  questions : List QuestionRow
  results : List ResultRow
  responses : List UserQuestionResponseRow
  next_result_id : Int
deriving DecidableEq, Repr

/-! ### Python dict as association list (insertion order, unique keys) -/

/-- `d[k] = v` on a Python dict: replace the value at an existing key in
place, otherwise append the new binding at the end. -/
def pyDictInsert {α β : Type} [DecidableEq α] :
    List (α × β) → α → β → List (α × β)
  | [], k, v => [(k, v)]
  | p :: rest, k, v =>
    if p.1 = k then (k, v) :: rest else p :: pyDictInsert rest k v

/-- Build a dict from a list of key/value pairs by repeated assignment
(`{k: v for ...}` / a `for` loop of assignments): later pairs win. -/
def pyDictOf {α β : Type} [DecidableEq α] (l : List (α × β)) : List (α × β) :=
  l.foldl (fun d p => pyDictInsert d p.1 p.2) []

/-- Dict lookup: `d[k]` / `d.get(k)`; `some v` also answers `k in d`
(keys are unique in any dict built from `[]`, so first match is the
binding). -/
def pyDictGet {α β : Type} [DecidableEq α] : List (α × β) → α → Option β
  | [], _ => none
  | p :: rest, k => if p.1 = k then some p.2 else pyDictGet rest k

/-- Accumulate decimal digits; any non-digit character fails. -/
def pyNatAux : List Char → Nat → Option Nat
  | [], acc => some acc
  | c :: cs, acc =>
    if c.isDigit then pyNatAux cs (acc * 10 + (c.toNat - 48)) else none

/-- Python `int(s)` on the canonical decimal strings used as ids
(raising `ValueError`, i.e. `none`, on anything unparsable). -/
def pyInt (s : String) : Option Int :=
  match s.data with
  | [] => none
  | '-' :: cs =>
    if cs = [] then none else (pyNatAux cs 0).map (fun n => -(n : Int))
  | cs => (pyNatAux cs 0).map (fun n => (n : Int))

/-! ### evaluate_exam (app/exam/services.py) -/

/-- One submitted answer as the service receives it
(`answer.get("question_id")`, `answer.get("selected_option")`). -/
structure AnswerInput where
  question_id : String
  selected_option : Option String
deriving DecidableEq, Repr

/-- The per-question response dict built inside `evaluate_exam`
(`options` holds the A--D texts). -/
structure QuestionResponseRec where
  question_id : Int
  question_text : String
  selected_option : Option String
  correct_option : String
  is_correct : Bool
  marks : Int
  option_a : String
  option_b : String
  option_c : String
  option_d : String
deriving DecidableEq, Repr

/-- `question.get("marks", 1) or 1`: a NULL or zero marks value falls back
to 1, anything else is kept. -/
def effMarks (q : QuestionRow) : Int :=
  match q.marks with
  | none => 1
  | some m => if m = 0 then 1 else m

/-- The answer lookup built from the submitted list: ids that fail
`int(...)` are skipped (`except ValueError: continue`), duplicate ids are
overwritten by later entries. -/
def buildAnswersDict (user_answers : List AnswerInput) :
    List (Int × Option String) :=
  user_answers.foldl
    (fun d a =>
      match pyInt a.question_id with
      | some k => pyDictInsert d k a.selected_option
      | none => d)
    []

/-- The response record the loop body of `evaluate_exam` builds for one
question: `user_option` is the submitted option when the question id is in
the answer dict (possibly `None`), else `None`; `is_correct` is the Python
comparison `user_option == question["correct_option"]`. -/
def respFor (ans : List (Int × Option String)) (q : QuestionRow) :
    QuestionResponseRec :=
  match pyDictGet ans q.id with
  | some uo =>
    ⟨q.id, q.question_text, uo, q.correct_option,
      decide (uo = some q.correct_option), effMarks q,
      q.option_a, q.option_b, q.option_c, q.option_d⟩
  | none =>
    ⟨q.id, q.question_text, none, q.correct_option, false, effMarks q,
      q.option_a, q.option_b, q.option_c, q.option_d⟩

/-- Running aggregates of the evaluation loop. -/
structure EvalState where
  total_marks : Int
  obtained_marks : Int
  correct_answers : Int
  wrong_answers : Int
  responses : List QuestionResponseRec
deriving DecidableEq, Repr

def initState : EvalState := ⟨0, 0, 0, 0, []⟩

/-- One iteration of the `for q_id, question in questions_by_id.items()`
loop: add the question marks to the total, credit a correct answer, count a
wrong or missing answer, and append the response record. -/
def scoreQuestion (ans : List (Int × Option String)) (s : EvalState)
    (q : QuestionRow) : EvalState :=
  let r := respFor ans q
  ⟨s.total_marks + r.marks,
    s.obtained_marks + (if r.is_correct then r.marks else 0),
    s.correct_answers + (if r.is_correct then 1 else 0),
    s.wrong_answers + (if r.is_correct then 0 else 1),
    s.responses ++ [r]⟩

/-- The evaluation loop of `evaluate_exam`: iterate over the values of
`questions_by_id` (a dict keyed by question id, so duplicate ids would be
collapsed) against the answer lookup. -/
def evalState (user_answers : List AnswerInput)
    (questions : List QuestionRow) : EvalState :=
  ((pyDictOf (questions.map (fun q => (q.id, q)))).map (fun p => p.2)).foldl
    (scoreQuestion (buildAnswersDict user_answers)) initState

/-- What `evaluate_exam` hands back: the persisted result row, the
in-memory response records, and the exam name attached afterwards. -/
structure EvalOutput where
  result : ResultRow
  question_responses : List QuestionResponseRec
  exam_name : String
deriving DecidableEq, Repr

/-- `ExamService.evaluate_exam` (app/exam/services.py:148-295): parse the
exam id, fetch the exam row and its questions, score every question of the
exam, persist one result row (db-assigned id) plus one response row per
question, and return the result with its responses.  `now` stands for
`datetime.now().isoformat()`. -/
def evaluate_exam (store : Store) (now : String) (user_id : String)
    (exam_id : String) (user_answers : List AnswerInput) :
    Except HTTPError (EvalOutput × Store) :=
  match pyInt exam_id with
  | none =>
    .error ⟨400, "Invalid ID format. IDs must be integers: " ++ exam_id⟩
  | some exam_id_int =>
    match (store.exams.filter (fun e => e.id = exam_id_int)).head? with
    | none => .error ⟨404, "Exam with ID " ++ exam_id ++ " not found"⟩
    | some exam_data =>
      let questions := store.questions.filter (fun q => q.exam_id = exam_id_int)
      if questions.isEmpty then
        .error ⟨404, "No questions found for exam with ID " ++ exam_id⟩
      else
        let st := evalState user_answers questions
        let result_id := store.next_result_id
        let resultRow : ResultRow :=
          ⟨result_id, user_id, exam_id_int, st.total_marks, st.obtained_marks,
            st.correct_answers, st.wrong_answers, now⟩
        let store2 : Store :=
          { store with
            results := store.results ++ [resultRow]
            responses := store.responses ++ st.responses.map (fun r =>
              ⟨result_id, r.question_id, r.selected_option, r.is_correct, now⟩)
            next_result_id := store.next_result_id + 1 }
        .ok (⟨resultRow, st.responses, exam_data.exam_name⟩, store2)

/-! ### Percentage computations -/

/-- `round(x, 2)`: round to 2 decimal places (exact rationals stand in for
Python floats; no claim here depends on float precision or tie direction). -/
def round2 (x : ℚ) : ℚ :=
  (round (x * 100) : ℤ) / 100

/-- The percentage of the submit response (app/exam/router.py:150):
`round((obtained / total) * 100, 2) if total > 0 else 0`. -/
def submitPercentage (obtained total : Int) : ℚ :=
  if total > 0 then round2 ((obtained : ℚ) / (total : ℚ) * 100) else 0

/-- The percentage of `ExamResult.to_dict` (app/exam/models.py:189), same
guarded expression. -/
def toDictPercentage (obtained total : Int) : ℚ :=
  if total > 0 then round2 ((obtained : ℚ) / (total : ℚ) * 100) else 0

/-- The percentage built into `analysis_context` by `generate_exam_analysis`
(app/exam/services.py:434):
`round((result.get("obtained_marks", 0) / result.get("total_marks", 1)) * 100, 2)`.
The row comes from a `select("*")`, so both keys are present and the `.get`
defaults never apply: the denominator is the stored `total_marks` with no
zero guard.  `none` models the `ZeroDivisionError` Python raises there. -/
def analysisPercentage (r : ResultRow) : Option ℚ :=
  if r.total_marks = 0 then none
  else some (round2 ((r.obtained_marks : ℚ) / (r.total_marks : ℚ) * 100))

/-! ### History (app/exam/services.py get_user_exam_history,
app/exam/router.py get_exam_history) -/

/-- A JSON-ish value, for embedding the Python dicts the history endpoints
return. -/
inductive Val where
  | s : String → Val
  | i : Int → Val
  | q : ℚ → Val
  | b : Bool → Val
  | none : Val
  | list : List Val → Val
  | dict : List (String × Val) → Val

/-- `ExamResult.to_dict()` (app/exam/models.py:177-196) without responses:
the exact keys of the returned dict (ids go through `str(...)` in
`ExamResult.__init__`).  Note there is no `exam_name` key. -/
def resultToDict (r : ResultRow) : List (String × Val) :=
  [("id", .s (toString r.id)),
   ("user_id", .s r.user_id),
   ("exam_id", .s (toString r.exam_id)),
   ("total_marks", .i r.total_marks),
   ("obtained_marks", .i r.obtained_marks),
   ("correct_answers", .i r.correct_answers),
   ("wrong_answers", .i r.wrong_answers),
   ("percentage", .q (toDictPercentage r.obtained_marks r.total_marks)),
   ("completed_at", .s r.completed_at)]

/-- `ExamService.get_user_exam_history` (app/exam/services.py:297-334):
select the user's result rows (the query has no ORDER BY; the SQL string
with `ORDER BY uer.completed_at DESC` above it is a dead literal that is
never executed), look up each exam name into `result_data["exam_name"]`
(a key `ExamResult.from_dict` then ignores), and return
`ExamResult.from_dict(result_data).to_dict()` per row in store order. -/
def get_user_exam_history (store : Store) (user_id : String) :
    List (List (String × Val)) :=
  (store.results.filter (fun r => r.user_id = user_id)).map
    (fun r => resultToDict r)

/-- One formatted question of the per-exam history detail
(app/exam/router.py:261-274).  The questions table has no `explanation`
column, so `q.get("explanation", "")` is always `""`. -/
def formatHistoryQuestion
    (user_answers : List (String × UserQuestionResponseRow))
    (q : QuestionRow) : List (String × Val) :=
  let ua := pyDictGet user_answers (toString q.id)
  [("question_id", .s (toString q.id)),
   ("question_text", .s q.question_text),
   ("options", .dict
     [("A", .s q.option_a), ("B", .s q.option_b),
      ("C", .s q.option_c), ("D", .s q.option_d)]),
   ("correct_answer", .s q.correct_option),
   ("user_answer",
     match ua with
     | some a => match a.selected_option with
       | some o => .s o
       | Option.none => .none
     | Option.none => .none),
   ("is_correct", .b (match ua with
     | some a => a.is_correct
     | Option.none => false)),
   ("explanation", .s "")]

/-- The `GET /exams/history/{exam_id}` handler `get_exam_history`
(app/exam/router.py:191-337).  The route compares the path string against
integer columns (`.eq("exam_id", exam_id)`, `.eq("result_id", result_id)`);
the store-side cast is modelled by comparing against `toString` of the
column.  Store exceptions (the `42P01` / "relation does not exist"
branches) are outside the pure store model, so the function is total. -/
def get_exam_history (store : Store) (current_user_id : String)
    (exam_id : String) : List (String × Val) :=
  let exam_result := store.results.filter
    (fun r => toString r.exam_id = exam_id && r.user_id = current_user_id)
  match exam_result.head? with
  | Option.none =>
    [("status", .s "not_found"),
     ("message", .s "You haven\x27t taken this exam yet"),
     ("exam_id", .s exam_id)]
  | some exam_data =>
    match (store.exams.filter (fun e => toString e.id = exam_id)).head? with
    | Option.none =>
      [("status", .s "error"),
       ("message", .s "Exam not found"),
       ("exam_id", .s exam_id)]
    | some exam_info =>
      let exam_title := exam_info.exam_name
      let questions := store.questions.filter
        (fun q => toString q.exam_id = exam_id)
      let result_id := toString exam_data.id
      let user_answers := pyDictOf
        ((store.responses.filter
            (fun a => toString a.result_id = result_id)).map
          (fun a => (toString a.question_id, a)))
      let formatted_questions :=
        questions.map (fun q => formatHistoryQuestion user_answers q)
      let total_marks := exam_data.total_marks
      let obtained_marks := exam_data.obtained_marks
      let percentage : ℚ :=
        if total_marks > 0 then
          round2 ((obtained_marks : ℚ) / (total_marks : ℚ) * 100)
        else 0
      [("status", .s "success"),
       ("exam_id", .s exam_id),
       ("title", .s exam_title),
       ("date_taken", .s exam_data.completed_at),
       ("score", .i obtained_marks),
       ("total_marks", .i total_marks),
       ("total_questions", .i questions.length),
       ("correct_answers", .i exam_data.correct_answers),
       ("wrong_answers", .i exam_data.wrong_answers),
       ("percentage", .q percentage),
       ("questions", .list (formatted_questions.map (fun d => .dict d)))]

/-! ### Authentication (app/auth/services.py) -/

/-- `AuthService.register_user` (app/auth/services.py:17-76).  `new_id`
stands for `str(uuid.uuid4())`, `hashed` for the bcrypt hash of `password`
(hashing is an external collaborator), `now` for
`datetime.now().isoformat()`.  Duplicate username/email are rejected with
HTTP 400 before anything is written; otherwise the row is inserted and
returned through `User.from_dict`, a model with no password_hash field. -/
def register_user (store : Store) (new_id : String) (hashed : String)
    (now : String) (username email full_name : String) :
    Except HTTPError (UserPublic × Store) :=
  if (store.users.filter (fun u => u.username = username)).length > 0 then
    .error ⟨400, "Username already exists"⟩
  else if (store.users.filter (fun u => u.email = email)).length > 0 then
    .error ⟨400, "Email already exists"⟩
  else
    let row : UserRow := ⟨new_id, username, email, full_name, hashed, now, now⟩
    .ok (⟨new_id, username, email, full_name, now, now⟩,
      { store with users := store.users ++ [row] })

/-- `AuthService.login_user` (app/auth/services.py:78-138).  `checkpw`
stands for `bcrypt.checkpw(password, stored_hash)`, `sign` for
`jwt.encode` of the payload built from the user row, `token_id` for
`str(uuid.uuid4())`, `now` for the clock.  Both the unknown-username and
the wrong-password paths raise HTTP 401 with the same literal detail. -/
def login_user (checkpw : String → String → Bool) (sign : UserRow → String)
    (token_id : String) (now : String) (store : Store)
    (username password : String) :
    Except HTTPError ((String × String) × Store) :=
  match (store.users.filter (fun u => u.username = username)).head? with
  | Option.none => .error ⟨401, "Invalid credentials"⟩
  | some user =>
    if !(checkpw password user.password_hash) then
      .error ⟨401, "Invalid credentials"⟩
    else
      let token := sign user
      let row : TokenRow := ⟨token_id, user.id, token, now, false⟩
      .ok ((token, "bearer"), { store with tokens := store.tokens ++ [row] })

/-- `AuthService.get_current_user` (app/auth/services.py:165-212).
`decodeSub` stands for `jwt.decode(...)` followed by `payload.get("sub")`:
`none` is a `PyJWTError` (bad signature), `some none` a payload without a
subject claim, `some (some uid)` a valid decode.  The first step selects
token rows with `token = t AND is_revoked = false`; an empty selection is
rejected with 401 before the token is ever decoded. -/
def auth_get_current_user (decodeSub : String → Option (Option String))
    (store : Store) (token : String) : Except HTTPError UserPublic :=
  let token_result := store.tokens.filter
    (fun t => t.token = token && t.is_revoked = false)
  if token_result.isEmpty then
    .error ⟨401, "Invalid or revoked token"⟩
  else
    match decodeSub token with
    | Option.none => .error ⟨401, "Invalid token"⟩
    | some Option.none => .error ⟨401, "Invalid token payload"⟩
    | some (some user_id) =>
      match (store.users.filter (fun u => u.id = user_id)).head? with
      | Option.none => .error ⟨404, "User not found"⟩
      | some u =>
        .ok ⟨u.id, u.username, u.email, u.full_name, u.created_at, u.updated_at⟩

/-! ### Dictionary lemmas -/

theorem pyDictGet_insert {α β : Type} [DecidableEq α]
    (d : List (α × β)) (k k' : α) (v : β) :
    pyDictGet (pyDictInsert d k v) k' =
      if k' = k then some v else pyDictGet d k' := by
  induction d with
  | nil =>
    by_cases h : k' = k
    · subst h; simp [pyDictInsert, pyDictGet]
    · have h' : ¬ k = k' := fun hh => h hh.symm
      simp [pyDictInsert, pyDictGet, h, h']
  | cons p rest ih =>
    by_cases hpk : p.1 = k
    · by_cases h : k' = k
      · subst h; simp [pyDictInsert, hpk, pyDictGet]
      · have h' : ¬ k = k' := fun hh => h hh.symm
        have hp' : ¬ p.1 = k' := fun hh => h' (hpk ▸ hh)
        simp [pyDictInsert, hpk, pyDictGet, h, h', hp']
    · by_cases h : k' = k
      · subst h
        simp [pyDictInsert, hpk, pyDictGet, ih]
      · simp [pyDictInsert, hpk, pyDictGet, h, ih]

theorem pyDictInsert_of_not_mem {α β : Type} [DecidableEq α]
    (d : List (α × β)) (k : α) (v : β) (h : k ∉ d.map Prod.fst) :
    pyDictInsert d k v = d ++ [(k, v)] := by
  induction d with
  | nil => rfl
  | cons p rest ih =>
    simp only [List.map_cons, List.mem_cons, not_or] at h
    rw [pyDictInsert, if_neg (fun hh => h.1 hh.symm), ih h.2]
    simp

theorem foldl_pyDictInsert_append {α β : Type} [DecidableEq α] :
    ∀ (l d : List (α × β)),
      ((d.map Prod.fst) ++ (l.map Prod.fst)).Nodup →
      l.foldl (fun d p => pyDictInsert d p.1 p.2) d = d ++ l
  | [], d, _ => by simp
  | p :: l, d, h => by
    have h1 : p.1 ∉ d.map Prod.fst :=
      fun hm => (List.nodup_append.mp (by simpa using h)).2.2 hm
        (List.mem_cons_self _ _)
    rw [List.foldl_cons, pyDictInsert_of_not_mem d p.1 p.2 h1,
      foldl_pyDictInsert_append l (d ++ [p])
        (by simpa [List.append_assoc] using h)]
    simp

theorem pyDictOf_eq_self {α β : Type} [DecidableEq α] (l : List (α × β))
    (h : (l.map Prod.fst).Nodup) : pyDictOf l = l := by
  have := foldl_pyDictInsert_append l [] (by simpa using h)
  simpa [pyDictOf] using this

theorem pyDictOf_questions_values (qs : List QuestionRow)
    (h : (qs.map (fun q => q.id)).Nodup) :
    (pyDictOf (qs.map (fun q => (q.id, q)))).map (fun p => p.2) = qs := by
  rw [pyDictOf_eq_self]
  · rw [List.map_map]
    exact List.map_id qs
  · rw [List.map_map]; exact h

theorem mem_pyDictInsert {α β : Type} [DecidableEq α]
    (d : List (α × β)) (k : α) (v : β) (p : α × β)
    (h : p ∈ pyDictInsert d k v) : p ∈ d ∨ p = (k, v) := by
  induction d with
  | nil => simp [pyDictInsert] at h; simp [h]
  | cons q rest ih =>
    by_cases hq : q.1 = k
    · rw [pyDictInsert, if_pos hq] at h
      rcases List.mem_cons.mp h with h | h
      · right; exact h
      · left; exact List.mem_cons_of_mem _ h
    · rw [pyDictInsert, if_neg hq] at h
      rcases List.mem_cons.mp h with h | h
      · left; exact h ▸ List.mem_cons_self _ _
      · rcases ih h with h | h
        · left; exact List.mem_cons_of_mem _ h
        · right; exact h

theorem mem_pyDictOf {α β : Type} [DecidableEq α] :
    ∀ (l d : List (α × β)) (p : α × β),
      p ∈ l.foldl (fun d q => pyDictInsert d q.1 q.2) d → p ∈ d ∨ p ∈ l
  | [], d, p, h => Or.inl (by simpa using h)
  | q :: l, d, p, h => by
    rw [List.foldl_cons] at h
    rcases mem_pyDictOf l (pyDictInsert d q.1 q.2) p h with h | h
    · rcases mem_pyDictInsert d q.1 q.2 p h with h | h
      · exact Or.inl h
      · exact Or.inr (by simp [h])
    · exact Or.inr (List.mem_cons_of_mem _ h)

/-! ### Scoring-loop lemmas -/

theorem respFor_marks (ans : List (Int × Option String)) (q : QuestionRow) :
    (respFor ans q).marks = effMarks q := by
  cases h : pyDictGet ans q.id <;> simp [respFor, h]

theorem respFor_question_id (ans : List (Int × Option String))
    (q : QuestionRow) : (respFor ans q).question_id = q.id := by
  cases h : pyDictGet ans q.id <;> simp [respFor, h]

theorem respFor_is_correct_iff (ans : List (Int × Option String))
    (q : QuestionRow) :
    ((respFor ans q).is_correct = true ↔
      (respFor ans q).selected_option = some (respFor ans q).correct_option) := by
  cases h : pyDictGet ans q.id <;> simp [respFor, h]

theorem respFor_of_get_none (ans : List (Int × Option String))
    (q : QuestionRow) (h : pyDictGet ans q.id = none) :
    (respFor ans q).is_correct = false ∧
      (respFor ans q).selected_option = none := by
  simp [respFor, h]

theorem foldl_score_total (ans : List (Int × Option String)) :
    ∀ (qs : List QuestionRow) (s : EvalState),
      (qs.foldl (scoreQuestion ans) s).total_marks =
        s.total_marks + (qs.map effMarks).sum
  | [], s => by simp
  | q :: qs, s => by
    rw [List.foldl_cons, foldl_score_total ans qs]
    simp [scoreQuestion, respFor_marks]
    ring

theorem foldl_score_counts (ans : List (Int × Option String)) :
    ∀ (qs : List QuestionRow) (s : EvalState),
      (qs.foldl (scoreQuestion ans) s).correct_answers +
        (qs.foldl (scoreQuestion ans) s).wrong_answers =
        s.correct_answers + s.wrong_answers + qs.length
  | [], s => by simp
  | q :: qs, s => by
    rw [List.foldl_cons, foldl_score_counts ans qs]
    cases h : (respFor ans q).is_correct <;>
      simp [scoreQuestion, h] <;> push_cast <;> ring

theorem foldl_score_responses (ans : List (Int × Option String)) :
    ∀ (qs : List QuestionRow) (s : EvalState),
      (qs.foldl (scoreQuestion ans) s).responses =
        s.responses ++ qs.map (respFor ans)
  | [], s => by simp
  | q :: qs, s => by
    rw [List.foldl_cons, foldl_score_responses ans qs]
    simp [scoreQuestion]

theorem foldl_score_wrong (ans : List (Int × Option String)) :
    ∀ (qs : List QuestionRow) (s : EvalState),
      (qs.foldl (scoreQuestion ans) s).wrong_answers =
        s.wrong_answers +
          (((qs.map (respFor ans)).filter
            (fun r => r.is_correct = false)).length : Int)
  | [], s => by simp
  | q :: qs, s => by
    rw [List.foldl_cons, foldl_score_wrong ans qs]
    cases h : (respFor ans q).is_correct <;>
      simp [scoreQuestion, h, List.filter_cons] <;> push_cast <;> ring

theorem foldl_score_obtained_le (ans : List (Int × Option String)) :
    ∀ (qs : List QuestionRow) (s : EvalState),
      (∀ q ∈ qs, 0 ≤ effMarks q) →
      s.obtained_marks ≤ s.total_marks →
      (qs.foldl (scoreQuestion ans) s).obtained_marks ≤
        (qs.foldl (scoreQuestion ans) s).total_marks
  | [], _, _, h0 => by simpa using h0
  | q :: qs, s, h, h0 => by
    rw [List.foldl_cons]
    refine foldl_score_obtained_le ans qs _
      (fun q' hq' => h q' (List.mem_cons_of_mem _ hq')) ?_
    have hm : 0 ≤ effMarks q := h q (List.mem_cons_self _ _)
    cases hc : (respFor ans q).is_correct <;>
      simp [scoreQuestion, hc, respFor_marks] <;> omega

/-! ### Lemmas about the evaluation state over an exam's questions -/

theorem evalState_counts (ans : List AnswerInput) (qs : List QuestionRow)
    (h : (qs.map (fun q => q.id)).Nodup) :
    (evalState ans qs).correct_answers + (evalState ans qs).wrong_answers =
      qs.length := by
  unfold evalState
  rw [pyDictOf_questions_values qs h, foldl_score_counts]
  simp [initState]

theorem evalState_total (ans : List AnswerInput) (qs : List QuestionRow)
    (h : (qs.map (fun q => q.id)).Nodup) :
    (evalState ans qs).total_marks = (qs.map effMarks).sum := by
  unfold evalState
  rw [pyDictOf_questions_values qs h, foldl_score_total]
  simp [initState]

theorem evalState_obtained_le (ans : List AnswerInput)
    (qs : List QuestionRow) (h : ∀ q ∈ qs, 0 ≤ effMarks q) :
    (evalState ans qs).obtained_marks ≤ (evalState ans qs).total_marks := by
  unfold evalState
  refine foldl_score_obtained_le _ _ _ ?_ (by simp [initState])
  intro q hq
  rcases List.mem_map.mp hq with ⟨pr, hp, hq2⟩
  rcases mem_pyDictOf _ _ _ (by simpa [pyDictOf] using hp) with hp' | hp'
  · simp at hp'
  · rcases List.mem_map.mp hp' with ⟨q0, hq0, he⟩
    have hqq : q = q0 := by rw [← hq2, ← he]
    rw [hqq]
    exact h q0 hq0

theorem evalState_responses (ans : List AnswerInput)
    (qs : List QuestionRow) :
    (evalState ans qs).responses =
      ((pyDictOf (qs.map (fun q => (q.id, q)))).map (fun p => p.2)).map
        (respFor (buildAnswersDict ans)) := by
  unfold evalState
  rw [foldl_score_responses]
  simp [initState]

theorem evalState_wrong_eq_filter (ans : List AnswerInput)
    (qs : List QuestionRow) :
    (evalState ans qs).wrong_answers =
      (((evalState ans qs).responses.filter
        (fun r => r.is_correct = false)).length : Int) := by
  rw [evalState_responses]
  unfold evalState
  rw [foldl_score_wrong]
  simp [initState]

theorem evalState_mem_responses (ans : List AnswerInput)
    (qs : List QuestionRow) (r : QuestionResponseRec)
    (hr : r ∈ (evalState ans qs).responses) :
    ∃ q ∈ qs, r = respFor (buildAnswersDict ans) q := by
  rw [evalState_responses] at hr
  rcases List.mem_map.mp hr with ⟨v, hv, hrv⟩
  rcases List.mem_map.mp hv with ⟨pr, hp, hv2⟩
  rcases mem_pyDictOf _ _ _ (by simpa [pyDictOf] using hp) with hp' | hp'
  · simp at hp'
  · rcases List.mem_map.mp hp' with ⟨q0, hq0, he⟩
    refine ⟨q0, hq0, ?_⟩
    rw [← hrv, ← hv2, ← he]

/-- Characterization of a successful `evaluate_exam` run: the exam id
parses, and the returned result row / responses are exactly the
evaluation state over the exam's questions. -/
theorem evaluate_exam_ok_spec (store : Store) (now uid eid : String)
    (ans : List AnswerInput) (out : EvalOutput) (st' : Store)
    (h : evaluate_exam store now uid eid ans = .ok (out, st')) :
    ∃ n, pyInt eid = some n ∧
      out.result = ⟨store.next_result_id, uid, n,
        (evalState ans (store.questions.filter (fun q => q.exam_id = n))).total_marks,
        (evalState ans (store.questions.filter (fun q => q.exam_id = n))).obtained_marks,
        (evalState ans (store.questions.filter (fun q => q.exam_id = n))).correct_answers,
        (evalState ans (store.questions.filter (fun q => q.exam_id = n))).wrong_answers,
        now⟩ ∧
      out.question_responses =
        (evalState ans (store.questions.filter (fun q => q.exam_id = n))).responses := by
  unfold evaluate_exam at h
  cases hp : pyInt eid with
  | none => rw [hp] at h; exact absurd h (by simp)
  | some n =>
    rw [hp] at h
    simp only [] at h
    cases hh : (store.exams.filter (fun e => e.id = n)).head? with
    | none => rw [hh] at h; exact absurd h (by simp)
    | some exam_data =>
      rw [hh] at h
      simp only [] at h
      by_cases hq : (store.questions.filter (fun q => q.exam_id = n)).isEmpty
      · rw [if_pos hq] at h; exact absurd h (by simp)
      · rw [if_neg hq] at h
        simp only [Except.ok.injEq, Prod.mk.injEq] at h
        obtain ⟨h1, -⟩ := h
        subst h1
        exact ⟨n, rfl, rfl, rfl⟩

/-! ### Answer-dictionary lemmas -/

theorem buildAnswersDict_get_aux :
    ∀ (l : List AnswerInput) (d : List (Int × Option String)) (k : Int),
      pyDictGet (l.foldl (fun d a =>
        match pyInt a.question_id with
        | some j => pyDictInsert d j a.selected_option
        | none => d) d) k =
      ((l.reverse.find? (fun a => pyInt a.question_id = some k)).map
        (fun a => a.selected_option)).or (pyDictGet d k)
  | [], d, k => by simp
  | a :: l, d, k => by
    rw [List.foldl_cons, buildAnswersDict_get_aux l _ k,
      List.reverse_cons, List.find?_append]
    cases hf : l.reverse.find? (fun a => pyInt a.question_id = some k) with
    | some x => simp [Option.or]
    | none =>
      cases hj : pyInt a.question_id with
      | none => simp [hj]
      | some j =>
        by_cases hjk : j = k
        · subst hjk; simp [hj, pyDictGet_insert]
        · have hjk' : ¬ some j = some k := by simpa using hjk
          simp [hj, hjk, hjk', pyDictGet_insert]
          intro hk
          exact absurd hk.symm hjk

/-- The lookup built from the submitted answers maps a question id to the
selected option of the LAST submitted entry whose id parses to it. -/
theorem buildAnswersDict_get (l : List AnswerInput) (k : Int) :
    pyDictGet (buildAnswersDict l) k =
      (l.reverse.find? (fun a => pyInt a.question_id = some k)).map
        (fun a => a.selected_option) := by
  unfold buildAnswersDict
  rw [buildAnswersDict_get_aux]
  simp [pyDictGet]

theorem buildAnswersDict_get_none (l : List AnswerInput) (k : Int)
    (h : ∀ a ∈ l, pyInt a.question_id ≠ some k) :
    pyDictGet (buildAnswersDict l) k = none := by
  rw [buildAnswersDict_get, List.find?_eq_none.mpr]
  · rfl
  · intro a ha
    simpa using h a (List.mem_reverse.mp ha)

theorem filter_length_pos_iff {α : Type} (l : List α) (p : α → Bool) :
    (l.filter p).length > 0 ↔ ∃ a ∈ l, p a := by
  rw [gt_iff_lt, List.length_pos, Ne, List.filter_eq_nil]
  push_neg
  simp

/-! ### Concrete fixtures (used by the witnesses) -/

def sampleExam : ExamRow := ⟨1, "Sample Exam", "desc", 30⟩

def sampleQ1 : QuestionRow :=
  ⟨1, 1, "Q1", "A1", "B1", "C1", "D1", "A", some 1⟩

def sampleQ2 : QuestionRow :=
  ⟨2, 1, "Q2", "A2", "B2", "C2", "D2", "B", some 2⟩

def sampleStore : Store :=
  ⟨[], [], [sampleExam], [sampleQ1, sampleQ2], [], [], 1⟩

def sampleAnswers : List AnswerInput :=
  [⟨"1", some "A"⟩, ⟨"2", some "C"⟩]

def sampleResp1 : QuestionResponseRec :=
  ⟨1, "Q1", some "A", "A", true, 1, "A1", "B1", "C1", "D1"⟩

def sampleResp2 : QuestionResponseRec :=
  ⟨2, "Q2", some "C", "B", false, 2, "A2", "B2", "C2", "D2"⟩

def sampleResult : ResultRow := ⟨1, "u1", 1, 3, 1, 1, 1, "t0"⟩

def sampleOut : EvalOutput :=
  ⟨sampleResult, [sampleResp1, sampleResp2], "Sample Exam"⟩

def sampleStore2 : Store :=
  ⟨[], [], [sampleExam], [sampleQ1, sampleQ2], [sampleResult],
    [⟨1, 1, some "A", true, "t0"⟩, ⟨1, 2, some "C", false, "t0"⟩], 2⟩

example : evaluate_exam sampleStore "t0" "u1" "1" sampleAnswers =
    .ok (sampleOut, sampleStore2) := rfl

/-! ### Claim theorems -/

/-- C1: For every exam and every submitted answer set, the result produced
by `evaluate_exam` satisfies `correct_answers + wrong_answers` = number of
questions belonging to the exam: each question of the exam is counted
exactly once, answered or not.  (The question ids are pairwise distinct,
being a database primary key.) -/
theorem evaluate_exam_correct_add_wrong (store : Store)
    (now uid eid : String) (ans : List AnswerInput) (out : EvalOutput)
    (st' : Store)
    (h : evaluate_exam store now uid eid ans = .ok (out, st'))
    (hids : (store.questions.map (fun q => q.id)).Nodup) :
    out.result.correct_answers + out.result.wrong_answers =
      ((store.questions.filter
        (fun q => q.exam_id = out.result.exam_id)).length : Int) := by
  obtain ⟨n, -, hres, -⟩ := evaluate_exam_ok_spec store now uid eid ans out st' h
  rw [hres]
  have hsub : ((store.questions.filter (fun q => q.exam_id = n)).map
      (fun q => q.id)).Nodup :=
    List.Nodup.sublist (List.Sublist.map _ (List.filter_sublist _)) hids
  simpa using evalState_counts ans _ hsub

theorem evaluate_exam_correct_add_wrong_witness :
    sampleOut.result.correct_answers + sampleOut.result.wrong_answers =
      ((sampleStore.questions.filter
        (fun q => q.exam_id = sampleOut.result.exam_id)).length : Int) :=
  evaluate_exam_correct_add_wrong sampleStore "t0" "u1" "1" sampleAnswers
    sampleOut sampleStore2 rfl (by decide)

/-- C2: For every exam and every submitted answer set, the result produced
by `evaluate_exam` satisfies `obtained_marks ≤ total_marks`, and
`total_marks` equals the sum of the marks attribute over the exam's
questions, independent of the answer set.  (Per the data model, `marks` is
a stored positive integer.) -/
theorem evaluate_exam_marks_bounds (store : Store) (now uid eid : String)
    (ans : List AnswerInput) (out : EvalOutput) (st' : Store)
    (h : evaluate_exam store now uid eid ans = .ok (out, st'))
    (hids : (store.questions.map (fun q => q.id)).Nodup)
    (hmarks : ∀ q ∈ store.questions, ∃ m : Int, q.marks = some m ∧ 1 ≤ m) :
    out.result.obtained_marks ≤ out.result.total_marks ∧
    out.result.total_marks =
      ((store.questions.filter (fun q => q.exam_id = out.result.exam_id)).map
        (fun q => q.marks.getD 1)).sum ∧
    (∀ (ans2 : List AnswerInput) (out2 : EvalOutput) (st2 : Store),
      evaluate_exam store now uid eid ans2 = .ok (out2, st2) →
      out2.result.total_marks = out.result.total_marks) := by
  obtain ⟨n, hp, hres, -⟩ := evaluate_exam_ok_spec store now uid eid ans out st' h
  have hsub : ((store.questions.filter (fun q => q.exam_id = n)).map
      (fun q => q.id)).Nodup :=
    List.Nodup.sublist (List.Sublist.map _ (List.filter_sublist _)) hids
  have heff : ∀ q ∈ store.questions.filter (fun q => q.exam_id = n),
      effMarks q = q.marks.getD 1 ∧ 0 ≤ effMarks q := by
    intro q hq
    obtain ⟨m, hm, hm1⟩ := hmarks q (List.mem_of_mem_filter hq)
    have hm0 : ¬ m = 0 := by omega
    refine ⟨?_, ?_⟩ <;> simp [effMarks, hm, hm0]
    omega
  refine ⟨?_, ?_, ?_⟩
  · rw [hres]
    exact evalState_obtained_le ans _ (fun q hq => (heff q hq).2)
  · rw [hres]
    show (evalState ans _).total_marks = _
    rw [evalState_total ans _ hsub]
    exact congrArg List.sum (List.map_congr_left (fun q hq => (heff q hq).1))
  · intro ans2 out2 st2 h2
    obtain ⟨n2, hp2, hres2, -⟩ :=
      evaluate_exam_ok_spec store now uid eid ans2 out2 st2 h2
    rw [hp] at hp2
    have hn : n2 = n := by
      cases hp2
      rfl
    rw [hres, hres2, hn]
    show (evalState ans2 _).total_marks = (evalState ans _).total_marks
    rw [evalState_total ans _ hsub, evalState_total ans2 _ hsub]

theorem evaluate_exam_marks_bounds_witness :
    sampleOut.result.obtained_marks ≤ sampleOut.result.total_marks :=
  (evaluate_exam_marks_bounds sampleStore "t0" "u1" "1" sampleAnswers
    sampleOut sampleStore2 rfl (by decide)
    (by
      intro q hq
      simp [sampleStore] at hq
      rcases hq with rfl | rfl
      · exact ⟨1, rfl, by norm_num⟩
      · exact ⟨2, rfl, by norm_num⟩)).1

/-- C3: In every per-question response record produced by `evaluate_exam`,
`is_correct` is true iff the selected option equals the question's correct
option; a question none of whose submitted answers reference it gets
`is_correct = false`, and `wrong_answers` counts exactly the responses
with `is_correct = false` (so an unanswered question counts as wrong). -/
theorem evaluate_exam_response_flags (store : Store) (now uid eid : String)
    (ans : List AnswerInput) (out : EvalOutput) (st' : Store)
    (h : evaluate_exam store now uid eid ans = .ok (out, st')) :
    (∀ r ∈ out.question_responses,
      (r.is_correct = true ↔ r.selected_option = some r.correct_option) ∧
      ((∀ a ∈ ans, pyInt a.question_id ≠ some r.question_id) →
        r.is_correct = false ∧ r.selected_option = none)) ∧
    out.result.wrong_answers =
      ((out.question_responses.filter
        (fun r => r.is_correct = false)).length : Int) := by
  obtain ⟨n, -, hres, hresp⟩ := evaluate_exam_ok_spec store now uid eid ans out st' h
  constructor
  · intro r hr
    rw [hresp] at hr
    obtain ⟨q, hq, rfl⟩ := evalState_mem_responses ans _ r hr
    refine ⟨respFor_is_correct_iff _ q, fun hnone => ?_⟩
    have hqid := respFor_question_id (buildAnswersDict ans) q
    have hg : pyDictGet (buildAnswersDict ans) q.id = none :=
      buildAnswersDict_get_none ans q.id (by rw [hqid] at hnone; exact hnone)
    exact respFor_of_get_none _ q hg
  · rw [hres, hresp]
    exact evalState_wrong_eq_filter ans _

theorem evaluate_exam_response_flags_witness :
    sampleResp2.is_correct = true ↔
      sampleResp2.selected_option = some sampleResp2.correct_option :=
  ((evaluate_exam_response_flags sampleStore "t0" "u1" "1" sampleAnswers
    sampleOut sampleStore2 rfl).1 sampleResp2 (by simp [sampleOut])).1

/-- C10: When the submitted answer list contains multiple entries with the
same question id, the LAST occurrence's selected option determines the
lookup used for scoring, and evaluation depends on the submission only
through that lookup, so duplicated submissions evaluate
deterministically. -/
theorem evaluate_exam_last_duplicate_wins (store : Store)
    (now uid eid : String) (ans1 ans2 : List AnswerInput) (k : Int) :
    (pyDictGet (buildAnswersDict ans1) k =
      (ans1.reverse.find? (fun a => pyInt a.question_id = some k)).map
        (fun a => a.selected_option)) ∧
    (buildAnswersDict ans1 = buildAnswersDict ans2 →
      evaluate_exam store now uid eid ans1 =
        evaluate_exam store now uid eid ans2) := by
  refine ⟨buildAnswersDict_get ans1 k, fun hd => ?_⟩
  have he : evalState ans1 = evalState ans2 := by
    funext qs
    unfold evalState
    rw [hd]
  unfold evaluate_exam
  rw [he]

def dupAnswers : List AnswerInput := [⟨"1", some "A"⟩, ⟨"1", some "B"⟩]

def lastAnswers : List AnswerInput := [⟨"1", some "B"⟩]

theorem evaluate_exam_last_duplicate_wins_witness :
    (pyDictGet (buildAnswersDict dupAnswers) 1 =
      (dupAnswers.reverse.find? (fun a => pyInt a.question_id = some 1)).map
        (fun a => a.selected_option)) ∧
    evaluate_exam sampleStore "t0" "u1" "1" dupAnswers =
      evaluate_exam sampleStore "t0" "u1" "1" lastAnswers :=
  ⟨(evaluate_exam_last_duplicate_wins sampleStore "t0" "u1" "1" dupAnswers
      lastAnswers 1).1,
   (evaluate_exam_last_duplicate_wins sampleStore "t0" "u1" "1" dupAnswers
      lastAnswers 1).2 rfl⟩

/-- C7: For every token all of whose stored rows are revoked,
`get_current_user` fails with 401 Unauthorized, whatever the decoder would
say about the token's signature and claims. -/
theorem revoked_token_fails_authentication
    (decodeSub : String → Option (Option String)) (store : Store)
    (token : String)
    (h : ∀ t ∈ store.tokens, t.token = token → t.is_revoked = true) :
    auth_get_current_user decodeSub store token =
      .error ⟨401, "Invalid or revoked token"⟩ := by
  have hf : store.tokens.filter
      (fun t => t.token = token && t.is_revoked = false) = [] := by
    rw [List.filter_eq_nil]
    intro t ht
    simp only [Bool.and_eq_true, decide_eq_true_eq, not_and]
    intro htk
    rw [h t ht htk]
    simp
  simp only [auth_get_current_user, hf]
  rfl

def aliceRow : UserRow :=
  ⟨"u1", "alice", "alice@example.com", "Alice", "HASH1", "t0", "t0"⟩

def revokedTokenRow : TokenRow := ⟨"tk1", "u1", "tok123", "t0", true⟩

def authStore : Store := ⟨[aliceRow], [revokedTokenRow], [], [], [], [], 1⟩

theorem revoked_token_fails_authentication_witness :
    auth_get_current_user (fun _ => some (some "u1")) authStore "tok123" =
      .error ⟨401, "Invalid or revoked token"⟩ :=
  revoked_token_fails_authentication (fun _ => some (some "u1")) authStore
    "tok123" (by decide)

/-- C8: `login_user` fails with the same 401 "Invalid credentials" error
both when no stored user has the username and when the user exists but the
password check fails, so the response does not reveal whether the username
existed. -/
theorem login_generic_invalid_credentials
    (checkpw : String → String → Bool) (sign : UserRow → String)
    (token_id now : String) (store : Store) (username password : String) :
    ((store.users.filter (fun u => u.username = username)).head? = none →
      login_user checkpw sign token_id now store username password =
        .error ⟨401, "Invalid credentials"⟩) ∧
    (∀ user,
      (store.users.filter (fun u => u.username = username)).head? = some user →
      checkpw password user.password_hash = false →
      login_user checkpw sign token_id now store username password =
        .error ⟨401, "Invalid credentials"⟩) := by
  constructor
  · intro h
    simp only [login_user, h]
  · intro user h hpw
    simp only [login_user, h, hpw]
    rfl

theorem login_generic_invalid_credentials_witness :
    (login_user (fun _ _ => false) (fun _ => "T") "tk2" "t1" authStore
      "ghost" "pw" = .error ⟨401, "Invalid credentials"⟩) ∧
    (login_user (fun _ _ => false) (fun _ => "T") "tk2" "t1" authStore
      "alice" "pw" = .error ⟨401, "Invalid credentials"⟩) :=
  ⟨(login_generic_invalid_credentials (fun _ _ => false) (fun _ => "T")
      "tk2" "t1" authStore "ghost" "pw").1 rfl,
   (login_generic_invalid_credentials (fun _ _ => false) (fun _ => "T")
      "tk2" "t1" authStore "alice" "pw").2 aliceRow rfl rfl⟩

/-- C6: `register_user` rejects a registration whose username or email is
already present among stored users with the duplicate error (HTTP 400,
the spec taxonomy's Conflict case for registration); otherwise it persists
the new user row and returns the user through the hash-free `User` model. -/
theorem register_user_conflict_or_create (store : Store)
    (new_id hashed now username email full_name : String) :
    (((∃ u ∈ store.users, u.username = username) ∨
      (∃ u ∈ store.users, u.email = email)) →
      register_user store new_id hashed now username email full_name =
        .error ⟨400, "Username already exists"⟩ ∨
      register_user store new_id hashed now username email full_name =
        .error ⟨400, "Email already exists"⟩) ∧
    ((¬ (∃ u ∈ store.users, u.username = username)) →
     (¬ (∃ u ∈ store.users, u.email = email)) →
      register_user store new_id hashed now username email full_name =
        .ok (⟨new_id, username, email, full_name, now, now⟩,
          { store with users := store.users ++
            [⟨new_id, username, email, full_name, hashed, now, now⟩] })) := by
  constructor
  · intro hdup
    unfold register_user
    by_cases h1 : (store.users.filter (fun u => u.username = username)).length > 0
    · rw [if_pos h1]
      exact Or.inl rfl
    · have h2 : (store.users.filter (fun u => u.email = email)).length > 0 := by
        rcases hdup with hd | hd
        · exact absurd ((filter_length_pos_iff _ _).mpr (by simpa using hd)) h1
        · exact (filter_length_pos_iff _ _).mpr (by simpa using hd)
      rw [if_neg h1, if_pos h2]
      exact Or.inr rfl
  · intro h1 h2
    unfold register_user
    rw [if_neg (fun hp => h1 (by simpa using (filter_length_pos_iff _ _).mp hp)),
      if_neg (fun hp => h2 (by simpa using (filter_length_pos_iff _ _).mp hp))]

theorem register_user_conflict_or_create_witness :
    (register_user authStore "u2" "HASH2" "t1" "alice" "a2@example.com"
        "Alice Two" = .error ⟨400, "Username already exists"⟩ ∨
     register_user authStore "u2" "HASH2" "t1" "alice" "a2@example.com"
        "Alice Two" = .error ⟨400, "Email already exists"⟩) ∧
    register_user authStore "u2" "HASH2" "t1" "bob" "bob@example.com" "Bob" =
      .ok (⟨"u2", "bob", "bob@example.com", "Bob", "t1", "t1"⟩,
        { authStore with users := authStore.users ++
          [⟨"u2", "bob", "bob@example.com", "Bob", "HASH2", "t1", "t1"⟩] }) :=
  ⟨(register_user_conflict_or_create authStore "u2" "HASH2" "t1" "alice"
      "a2@example.com" "Alice Two").1
      (Or.inl ⟨aliceRow, by simp [authStore], rfl⟩),
   (register_user_conflict_or_create authStore "u2" "HASH2" "t1" "bob"
      "bob@example.com" "Bob").2 (by decide) (by decide)⟩

/-- C9: Whenever no result row exists for the given (user, exam) pair, the
per-exam history detail endpoint returns the structured "not taken"
payload as a normal response (its `status` field is "not_found"), not an
error. -/
theorem get_exam_history_not_taken (store : Store)
    (uid eid : String)
    (h : ∀ r ∈ store.results,
      ¬ (toString r.exam_id = eid ∧ r.user_id = uid)) :
    get_exam_history store uid eid =
      [("status", Val.s "not_found"),
       ("message", Val.s "You haven\x27t taken this exam yet"),
       ("exam_id", Val.s eid)] := by
  have hf : store.results.filter
      (fun r => toString r.exam_id = eid && r.user_id = uid) = [] := by
    rw [List.filter_eq_nil]
    intro r hr
    simpa using h r hr
  simp only [get_exam_history, hf]
  rfl

theorem get_exam_history_not_taken_witness :
    get_exam_history authStore "u1" "1" =
      [("status", Val.s "not_found"),
       ("message", Val.s "You haven\x27t taken this exam yet"),
       ("exam_id", Val.s "1")] :=
  get_exam_history_not_taken authStore "u1" "1" (by simp [authStore])

/-! ### C4 and C5: divergences evaluated at concrete inputs -/

/-- A result row with `total_marks = 0`, as the claim's universal
quantification over results must cover. -/
def zeroTotalResult : ResultRow := ⟨7, "u1", 1, 0, 0, 0, 0, "t0"⟩

/-- C4 (divergence): the percentage sites in `submit_exam` and
`ExamResult.to_dict` are guarded and yield 0 for a non-positive total, but
the percentage built by `generate_exam_analysis` divides by the stored
`total_marks` unguarded: at a result row with `total_marks = 0` it is a
division by zero (`none`), not the 0 the claim requires. -/
theorem analysis_percentage_unguarded :
    (∀ o : Int, submitPercentage o 0 = 0) ∧
    (∀ o : Int, toDictPercentage o 0 = 0) ∧
    analysisPercentage zeroTotalResult = none := by
  refine ⟨fun o => ?_, fun o => ?_, ?_⟩ <;>
    simp [submitPercentage, toDictPercentage, analysisPercentage,
      zeroTotalResult]

def histExam : ExamRow := ⟨1, "History Exam", "d", 10⟩

def histR1 : ResultRow := ⟨1, "u1", 1, 10, 5, 5, 5, "2024-01-01T10:00:00"⟩

def histR2 : ResultRow := ⟨2, "u1", 1, 10, 8, 8, 2, "2024-02-01T10:00:00"⟩

def histStore : Store := ⟨[], [], [histExam], [], [histR1, histR2], [], 3⟩

/-- C5 (divergence): on a store whose two results for the user come back
oldest first, `get_user_exam_history` returns them in that same store
order (the older January attempt before the newer February one, not most
recent first), and no returned item carries an `exam_name` key. -/
theorem user_history_unsorted_and_unenriched :
    get_user_exam_history histStore "u1" =
      [resultToDict histR1, resultToDict histR2] ∧
    histR1.completed_at.data < histR2.completed_at.data ∧
    ((get_user_exam_history histStore "u1").map
      (fun d => d.map Prod.fst)).all
        (fun ks => !(ks.contains "exam_name")) = true := by
  refine ⟨rfl, by decide, by decide⟩

end ExamApp
